import Mathlib

/-
Verification development for the gecc_ai survey app (src/app.py).

The file shallowly embeds the app's testable core: the music-prompt builder
(create_music_prompt), the PCM-to-WAV framing (decode_prediction_to_wav_bytes),
the silence fallback (create_silent_audio), the two bounded-retry call loops
(load_test_from_gemini and load_music), and the final-page result aggregation
(render_final_page's summary computation).  External effects (HTTP requests,
Streamlit UI calls, credential refresh) are modelled as explicit environments
supplying the outcome of each attempt; machine strings are Lean Strings and
numeric results are exact rationals.
-/

/-! ### String utilities

Python's `in` operator on strings (substring test) and `str.split(", ")`
are modelled on `List Char` so that every definition reduces in the kernel. -/

/-- Does the first list start with the second list (character-wise)? -/
def listStartsWith : List Char → List Char → Bool
  | _, [] => true
  | [], _ :: _ => false
  | a :: as, b :: bs => a == b && listStartsWith as bs

/-- Does `l` contain `pat` as a contiguous sublist?  Mirrors Python `pat in l`. -/
def listHasSub (pat : List Char) : List Char → Bool
  | [] => pat.isEmpty
  | a :: rest => listStartsWith (a :: rest) pat || listHasSub pat rest

/-- Python `pat in s` (substring containment). -/
def strContains (s pat : String) : Bool :=
  listHasSub pat.data s.data

/-- Split a character list on the two-character separator ", ".
Mirrors Python `s.split(", ")`. -/
def splitCharsOnCommaSpace : List Char → List Char → List (List Char)
  | [], acc => [acc.reverse]
  | ',' :: ' ' :: rest, acc => acc.reverse :: splitCharsOnCommaSpace rest []
  | c :: rest, acc => splitCharsOnCommaSpace rest (c :: acc)

/-- Read a string as a comma-separated list of terms (separator ", "),
the reading used by the spec for negative-prompt term lists. -/
def readTerms (s : String) : List String :=
  (splitCharsOnCommaSpace s.data []).map String.mk

/-- Python `str.lower()`, character by character. -/
def strLower (s : String) : String :=
  String.mk (s.data.map Char.toLower)

/-- ASCII whitespace, the characters stripped by Python `str.strip()` that
can occur in the app's text fields. -/
def isSpaceChar (c : Char) : Bool :=
  c == ' ' || c == '\t' || c == '\n' || c == '\r'

/-- Python `str.strip()`: drop leading and trailing whitespace. -/
def strTrim (s : String) : String :=
  String.mk (((s.data.dropWhile isSpaceChar).reverse.dropWhile isSpaceChar).reverse)

/-! ### Data model: MusicParams

`music_params` is a Python dict; every field is optional (absent key =
`none`), and each `music_params.get(k, d)` in the source is modelled as
`(p.k).getD d`, while `music_params.get(k)` (no default) is the raw option. -/

/-- The `music_params` dict built on page 1 of the app. -/
structure MusicParams where
  genre : Option String := none
  tempo : Option String := none
  mood : Option String := none
  volume : Option String := none
  instruments : Option (List String) := none
  negative_prompt : Option String := none
  seed : Option Int := none
deriving DecidableEq

/-- Python rendering of an optional string inside an f-string:
a missing value prints as the literal text "None". -/
def pyOptStr : Option String → String
  | some s => s
  | none => "None"

/-! ### MusicPromptBuilder (create_music_prompt, src/app.py lines 69-146) -/

/-- The `tempo_map` dict lookup (`tempo_map.get(key)`, no default):
unrecognized keys yield `none`. -/
def tempo_map (k : String) : Option String :=
  if k = "Very Slow" then some "very slow tempo, meditative pace"
  else if k = "Slow" then some "slow tempo, relaxed pace"
  else if k = "Moderate" then some "moderate tempo, steady rhythm"
  else if k = "Fast" then some "fast tempo, energetic pace"
  else if k = "Very Fast" then some "very fast tempo, high energy"
  else none

/-- The `volume_map` dict lookup (`volume_map.get(key)`, no default). -/
def volume_map (k : String) : Option String :=
  if k = "Very Quiet" then some "very soft and gentle, barely audible"
  else if k = "Quiet" then some "soft and gentle, background ambiance"
  else if k = "Moderate" then some "moderate volume, balanced dynamics"
  else if k = "Loud" then some "full volume, rich and present"
  else if k = "Very Loud" then some "powerful and intense, strong presence"
  else none

/-- Source line 86: `tempo_desc = tempo_map.get(music_params.get('tempo', 'Moderate'))`. -/
def tempo_desc (p : MusicParams) : Option String :=
  tempo_map (p.tempo.getD "Moderate")

/-- Source line 110: `volume_desc = volume_map.get(music_params.get('volume', 'Moderate'))`. -/
def volume_desc (p : MusicParams) : Option String :=
  volume_map (p.volume.getD "Moderate")

/-- The instrument clause (src/app.py lines 92-100).  Note every non-empty
clause begins with the separator ", " exactly as in the source f-strings;
for three or more instruments the source lowercases the joined head
`', '.join(instruments[:-1]).lower()` and the last element separately. -/
def instrumentClause : List String → String
  | [] => ""
  | [a] => ", featuring " ++ strLower a
  | [a, b] => ", featuring " ++ strLower a ++ " and " ++ strLower b
  | a :: b :: c :: rest =>
      ", featuring " ++ strLower (String.intercalate ", " ((a :: b :: c :: rest).dropLast))
        ++ ", and " ++ strLower ((a :: b :: c :: rest).getLast (List.cons_ne_nil _ _))

/-- The `negative_items` list (src/app.py lines 119-138), in append order:
user free text (if non-empty after strip), tempo-conditional terms,
mood-conditional terms, then the fixed always-excluded terms. -/
def negativeItems (p : MusicParams) : List String :=
  let custom := strTrim (p.negative_prompt.getD "")
  let l0 := if custom ≠ "" then [custom] else []
  let l1 := l0 ++
    (if p.tempo = some "Very Slow" then ["fast", "energetic", "upbeat"]
     else if p.tempo = some "Fast" ∨ p.tempo = some "Very Fast" then
       ["slow", "meditative", "sleepy"]
     else [])
  let l2 := l1 ++
    (if p.mood = some "calm" then ["aggressive", "chaotic", "dissonant"]
     else if p.mood = some "energetic" then ["sleepy", "boring", "monotonous"]
     else [])
  l2 ++ ["vocals", "lyrics", "singing", "sudden changes", "jarring transitions"]

/-- The composed main prompt (src/app.py lines 113-116).  A `none` tempo or
volume description renders as the literal "None", as in a Python f-string. -/
def main_prompt_of (p : MusicParams) : String :=
  (p.genre.getD "ambient") ++ " music, " ++ (p.mood.getD "calm") ++ " and peaceful, "
    ++ pyOptStr (tempo_desc p) ++ instrumentClause (p.instruments.getD [])
    ++ ", " ++ pyOptStr (volume_desc p)
    ++ ", instrumental, non-distracting, perfect for concentration and focus"

/-- The function `create_music_prompt` (src/app.py lines 69-146): returns
`(prompt, negative_prompt)`.  Python's `", ".join(set(negative_items))`
iterates the deduplicated items in an unspecified hash order; it is modelled
by `List.dedup`, which removes duplicates — the claims settled below are
insensitive to the iteration order. -/
def create_music_prompt (p : MusicParams) : String × String :=
  (main_prompt_of p, String.intercalate ", " (negativeItems p).dedup)

/-! ### AudioFrameEncoder (decode_prediction_to_wav_bytes, src/app.py lines 40-67)

The source base64-decodes the payload and reads it with
`np.frombuffer(raw, dtype=np.int16)`; the embedding starts from the resulting
int16 sample list, so one input sample corresponds to two raw bytes
(the input byte length is `2 * pcm.length`). -/

/-- Source `pcm.reshape(-1, 2)`: group consecutive samples into stereo frames. -/
def pairUpStereo : List Int → List (Int × Int)
  | a :: b :: rest => (a, b) :: pairUpStereo rest
  | _ => []

/-- Flatten stereo frames back to the interleaved sample sequence
(`stereo.tobytes()` at the sample level). -/
def flattenFrames : List (Int × Int) → List Int
  | [] => []
  | (a, b) :: rest => a :: b :: flattenFrames rest

/-- A WAV container as written by the `wave` module: header metadata plus
the framed sample data. -/
structure WavData where
  nchannels : Nat
  sampwidth : Nat
  framerate : Nat
  frames : List (Int × Int)
deriving DecidableEq

/-- The function `decode_prediction_to_wav_bytes` (src/app.py lines 40-67) at the sample
level: drop the final sample if the count is odd, reshape to stereo frames,
and wrap in a WAV container with 2 channels, 2-byte samples, 48000 Hz. -/
def decode_prediction_to_wav_bytes (pcm : List Int) : WavData :=
  let pcm2 := if pcm.length % 2 ≠ 0 then pcm.dropLast else pcm
  { nchannels := 2, sampwidth := 2, framerate := 48000, frames := pairUpStereo pcm2 }

/-- Byte length of the WAV data payload: frames × channels × bytes-per-sample. -/
def wavDataByteLength (w : WavData) : Nat :=
  w.frames.length * w.nchannels * w.sampwidth

/-! ### Silence fallback (create_silent_audio, src/app.py lines 295-315) -/

/-- A mono WAV container as written by `scipy.io.wavfile.write` for a 1-D
int16 array. -/
structure MonoWav where
  framerate : Nat
  nchannels : Nat
  samples : List Int
deriving DecidableEq

/-- The abstract byte value returned by the music-generation path: a stereo
WAV from the decoder, a mono WAV from the silence writer, or the empty byte
string `b''`. -/
inductive MusicBytes
  | wav (w : WavData)
  | monoWav (m : MonoWav)
  | empty
deriving DecidableEq

/-- Source `scipy.io.wavfile.write(buffer, samplerate, array)` for a 1-D int16
array: a mono container at the given rate.  The write itself does not fail. -/
def scipy_wav_write (rate : Nat) (samples : List Int) : Option MonoWav :=
  some { framerate := rate, nchannels := 1, samples := samples }

/-- The body of `create_silent_audio`'s `try` block: 44100 Hz, `duration`
seconds of all-zero int16 samples (`np.zeros(int(samplerate * duration))`). -/
def create_silent_audio_core (duration : Nat) : Option MonoWav :=
  scipy_wav_write 44100 (List.replicate (44100 * duration) 0)

/-- The `try`/`except` wrapper of `create_silent_audio`: a successful write
returns its bytes, an internal encoding error returns `b''`. -/
def silent_fallback_of : Option MonoWav → MusicBytes
  | some m => .monoWav m
  | none => .empty

/-- The function `create_silent_audio` (src/app.py lines 295-315). -/
def create_silent_audio (duration : Nat := 30) : MusicBytes :=
  silent_fallback_of (create_silent_audio_core duration)

/-! ### MusicGenerationService (load_music, src/app.py lines 183-293)

The remote endpoint is modelled as an environment giving the outcome of each
`requests.post` attempt (1-indexed), plus the token returned by
`get_access_token_for_lyria`. -/

/-- A prediction entry: either a payload that decodes to int16 samples, or a
corrupt entry on which `decode_prediction_to_wav_bytes` fails internally
(returning `None` in the source). -/
inductive LyriaPrediction
  | valid (pcm : List Int)
  | corrupt
deriving DecidableEq

/-- The parsed body of a 200 response: invalid JSON, or a JSON object whose
`predictions` field is a list. -/
inductive LyriaResponse
  | invalidJson
  | json (predictions : List LyriaPrediction)
deriving DecidableEq

/-- Outcome of one `requests.post` attempt in the retry loop. -/
inductive LyriaAttemptOutcome
  | success (resp : LyriaResponse)
  | timeout
  | httpError (status : Nat)
  | otherError (msg : String)
deriving DecidableEq

/-- The external world seen by `load_music`: the credential provider's
token (`none` models `get_access_token_for_lyria` returning `None`) and the
outcome of each request attempt. -/
structure LyriaEnv where
  token : Option String
  attempts : Nat → LyriaAttemptOutcome

/-- Result of `load_music`: the returned bytes plus how many times
`requests.post` was invoked. -/
structure LoadMusicResult where
  bytes : MusicBytes
  postCalls : Nat
deriving DecidableEq

/-- The retry loop of `load_music` (src/app.py lines 237-266) together with
the response parsing that follows the `break` (lines 268-289).  `attempt` is
the 1-indexed attempt number and `left` the number of retries still allowed
(`left > 0` iff `attempt < max_retries`).
- a successful response is parsed: invalid JSON, an empty prediction list,
  or a failing decode all return the silent fallback; otherwise the first
  prediction's decoded WAV bytes are returned;
- a timeout retries while attempts remain, else returns the silent fallback;
- an HTTP error (any status, including 429) returns the silent fallback
  immediately;
- any other exception retries while attempts remain, else returns the
  silent fallback.

`parseLyriaResponse` is the parsing that follows the `break` (lines 268-289):
invalid JSON, an empty prediction list, or a failing decode all return the
silent fallback; otherwise the first prediction's decoded WAV bytes are
returned. -/
def parseLyriaResponse (resp : LyriaResponse) (attempt : Nat) : LoadMusicResult :=
  match resp with
  | .invalidJson => ⟨create_silent_audio 30, attempt⟩
  | .json [] => ⟨create_silent_audio 30, attempt⟩
  | .json (.corrupt :: _) => ⟨create_silent_audio 30, attempt⟩
  | .json (.valid pcm :: _) => ⟨.wav (decode_prediction_to_wav_bytes pcm), attempt⟩

/-- The retry loop itself; see the comment above `parseLyriaResponse`. -/
def lyriaGo (env : LyriaEnv) (attempt : Nat) : Nat → LoadMusicResult
  | 0 =>
    match env.attempts attempt with
    | .success resp => parseLyriaResponse resp attempt
    | .timeout => ⟨create_silent_audio 30, attempt⟩
    | .httpError _ => ⟨create_silent_audio 30, attempt⟩
    | .otherError _ => ⟨create_silent_audio 30, attempt⟩
  | left + 1 =>
    match env.attempts attempt with
    | .success resp => parseLyriaResponse resp attempt
    | .timeout => lyriaGo env (attempt + 1) left
    | .httpError _ => ⟨create_silent_audio 30, attempt⟩
    | .otherError _ => lyriaGo env (attempt + 1) left

/-- The function `load_music` (src/app.py lines 183-293): a missing token returns the
silent fallback before any request; otherwise the retry loop runs with
`max_retries` total attempts (the callers use the default 3, assumed ≥ 1). -/
def load_music (env : LyriaEnv) (maxRetries : Nat := 3) : LoadMusicResult :=
  match env.token with
  | none => ⟨create_silent_audio 30, 0⟩
  | some _ => lyriaGo env 1 (maxRetries - 1)

/-! ### ContentGenerationService (load_test_from_gemini, src/app.py lines 148-181) -/

/-- One question object from the parsed Gemini response. -/
structure Question where
  text : String
  correct_response : String
deriving DecidableEq

/-- Outcome of one Gemini attempt: either the parsed
`(generated_text, questions)` pair — i.e. the call, the JSON parse and both
key lookups all succeeded — or an exception with message `msg` raised
anywhere in the `try` block. -/
inductive GeminiOutcome
  | ok (text : String) (questions : List Question)
  | exn (msg : String)

/-- The rate-limit classification of `load_test_from_gemini` (src/app.py
line 172): the exception message contains "rate limit" case-insensitively
or contains "429". -/
def isRateLimitMsg (msg : String) : Bool :=
  strContains (strLower msg) "rate limit" || strContains msg "429"

/-- The retry loop of `load_test_from_gemini`: `attempt` is 1-indexed and
`left` the number of retries still allowed.  A rate-limit-classified
exception retries while attempts remain and otherwise returns the labelled
rate-limit sentinel; any other exception returns the generic error sentinel
immediately.  The second component counts invocations (the attempt at which
the loop returned). -/
def geminiGo (env : Nat → GeminiOutcome) (attempt : Nat) :
    Nat → (String × List Question) × Nat
  | 0 =>
    match env attempt with
    | .ok t qs => ((t, qs), attempt)
    | .exn msg =>
        if isRateLimitMsg msg then
          (("Error loading test (rate limit). Please try again later.", []), attempt)
        else
          (("Error loading test. Please try again.", []), attempt)
  | left + 1 =>
    match env attempt with
    | .ok t qs => ((t, qs), attempt)
    | .exn msg =>
        if isRateLimitMsg msg then
          geminiGo env (attempt + 1) left
        else
          (("Error loading test. Please try again.", []), attempt)

/-- The function `load_test_from_gemini` (src/app.py lines 148-181); the callers use the
default `max_retries = 7` (assumed ≥ 1). -/
def load_test_from_gemini (env : Nat → GeminiOutcome) (maxRetries : Nat := 7) :
    (String × List Question) × Nat :=
  geminiGo env 1 (maxRetries - 1)

/-! ### ResultAggregator (render_final_page, src/app.py lines 556-624) -/

/-- One recorded test section, as stored in `st.session_state.test_answers`
(the fields read by `render_final_page`). -/
structure SectionResult where
  had_music : Bool
  correct_count : Nat
  total_questions : Nat
deriving DecidableEq

/-- Source `percentage = (score / total * 100) if total > 0 else 0`
(src/app.py line 573), in exact rational arithmetic. -/
def sectionPercentage (s : SectionResult) : ℚ :=
  if s.total_questions > 0 then
    (s.correct_count : ℚ) / (s.total_questions : ℚ) * 100
  else 0

/-- The `music_sections` partition (sections with `had_music`). -/
def musicSections (l : List SectionResult) : List SectionResult :=
  l.filter (fun s => s.had_music)

/-- The `no_music_sections` partition (sections without `had_music`). -/
def noMusicSections (l : List SectionResult) : List SectionResult :=
  l.filter (fun s => !s.had_music)

/-- Simple arithmetic mean of a list of rationals. -/
def arithMean (xs : List ℚ) : ℚ := xs.sum / (xs.length : ℚ)

/-- The performance analysis of `render_final_page` (src/app.py lines
613-616): computed only when both partitions are non-empty
(`if no_music_sections and music_sections:`), as
`(baseline_avg, music_avg, improvement)`; otherwise omitted. -/
def performanceAnalysis (l : List SectionResult) : Option (ℚ × ℚ × ℚ) :=
  let noM := noMusicSections l
  let mus := musicSections l
  if noM ≠ [] ∧ mus ≠ [] then
    let baseline_avg := arithMean (noM.map sectionPercentage)
    let music_avg := arithMean (mus.map sectionPercentage)
    some (baseline_avg, music_avg, music_avg - baseline_avg)
  else none

/-! ### Helper lemmas -/

/-- A list starts with itself followed by anything. -/
theorem listStartsWith_append (p s : List Char) : listStartsWith (p ++ s) p = true := by
  induction p with
  | nil => cases s with
    | nil => rfl
    | cons c cs => rfl
  | cons a as ih => simp [listStartsWith, ih]

/-- A list that starts with `pat` contains `pat`. -/
theorem listHasSub_of_startsWith {pat l : List Char} (h : listStartsWith l pat = true) :
    listHasSub pat l = true := by
  cases l with
  | nil =>
      cases pat with
      | nil => rfl
      | cons b bs => simp [listStartsWith] at h
  | cons a rest => simp [listHasSub, h]

/-- Substring containment is preserved by prepending. -/
theorem listHasSub_append_left {pat m : List Char} (l : List Char)
    (h : listHasSub pat m = true) : listHasSub pat (l ++ m) = true := by
  induction l with
  | nil => simpa using h
  | cons a as ih => simp [listHasSub, ih]

/-- Reshaping to stereo frames and flattening keeps the first
`2 * (n / 2)` samples. -/
theorem flattenFrames_pairUpStereo :
    ∀ l : List Int, flattenFrames (pairUpStereo l) = l.take (2 * (l.length / 2))
  | [] => rfl
  | [_] => by simp [pairUpStereo, flattenFrames]
  | a :: b :: rest => by
      have ih := flattenFrames_pairUpStereo rest
      have h2 : 2 * ((a :: b :: rest).length / 2) = 2 * (rest.length / 2) + 1 + 1 := by
        simp only [List.length_cons]
        omega
      rw [h2]
      simp [pairUpStereo, flattenFrames, ih, List.take_succ_cons]

/-- Number of stereo frames produced from `n` samples: `n / 2`. -/
theorem length_pairUpStereo :
    ∀ l : List Int, (pairUpStereo l).length = l.length / 2
  | [] => rfl
  | [_] => by simp [pairUpStereo]
  | a :: b :: rest => by
      have ih := length_pairUpStereo rest
      simp only [pairUpStereo, List.length_cons, ih]
      omega

/-- The two `had_music` partitions cover all recorded sections. -/
theorem length_music_partition (l : List SectionResult) :
    (musicSections l).length + (noMusicSections l).length = l.length := by
  induction l with
  | nil => rfl
  | cons s t ih =>
      cases hs : s.had_music <;>
        simp [musicSections, noMusicSections, List.filter_cons, hs] at ih ⊢ <;>
        omega

/-! ### Claim C5 -/

/-- C5: given raw little-endian 16-bit PCM samples, `decode_prediction_to_wav_bytes`
produces a WAV container declaring frame rate 48000, channel count 2, and
sample width 2 bytes (16-bit); when the sample count is even the data payload
byte length equals the input byte length (`2 * pcm.length`) and the framed
data is exactly the input; when the sample count is odd exactly the final
trailing sample is dropped before framing, and no error is raised (the
function is total). -/
theorem decode_prediction_wav_contract (pcm : List Int) :
    (decode_prediction_to_wav_bytes pcm).framerate = 48000 ∧
    (decode_prediction_to_wav_bytes pcm).nchannels = 2 ∧
    (decode_prediction_to_wav_bytes pcm).sampwidth = 2 ∧
    (pcm.length % 2 = 0 →
      wavDataByteLength (decode_prediction_to_wav_bytes pcm) = 2 * pcm.length ∧
      flattenFrames (decode_prediction_to_wav_bytes pcm).frames = pcm) ∧
    (pcm.length % 2 = 1 →
      wavDataByteLength (decode_prediction_to_wav_bytes pcm) = 2 * pcm.length - 2 ∧
      flattenFrames (decode_prediction_to_wav_bytes pcm).frames = pcm.dropLast) := by
  refine ⟨rfl, rfl, rfl, ?_, ?_⟩
  · intro h
    constructor
    · simp only [decode_prediction_to_wav_bytes, wavDataByteLength, h,
        length_pairUpStereo]
      simp only [ne_eq, not_true_eq_false, if_false, ite_false]
      omega
    · simp only [decode_prediction_to_wav_bytes, h, flattenFrames_pairUpStereo]
      simp only [ne_eq, not_true_eq_false, if_false, ite_false]
      have h2 : 2 * (pcm.length / 2) = pcm.length := by omega
      rw [h2, List.take_length]
  · intro h
    have hpos : pcm ≠ [] := by
      intro hnil
      rw [hnil] at h
      simp at h
    constructor
    · simp only [decode_prediction_to_wav_bytes, wavDataByteLength, h,
        length_pairUpStereo]
      have hlen : pcm.dropLast.length = pcm.length - 1 := List.length_dropLast pcm
      simp only [ne_eq, h]
      rw [if_pos (by omega)]
      rw [hlen]
      omega
    · simp only [decode_prediction_to_wav_bytes, h, flattenFrames_pairUpStereo]
      simp only [ne_eq]
      rw [if_pos (by omega)]
      have hlen : pcm.dropLast.length = pcm.length - 1 := List.length_dropLast pcm
      have h2 : 2 * (pcm.dropLast.length / 2) = pcm.dropLast.length := by
        rw [hlen]; omega
      rw [h2, List.take_length]

/-- Witness for C5: the spec's 10-sample and 11-sample examples. -/
theorem decode_prediction_wav_contract_witness :
    wavDataByteLength (decode_prediction_to_wav_bytes [0, 1, 2, 3, 4, 5, 6, 7, 8, 9]) = 20 ∧
    flattenFrames (decode_prediction_to_wav_bytes [0, 1, 2, 3, 4, 5, 6, 7, 8, 9]).frames
      = [0, 1, 2, 3, 4, 5, 6, 7, 8, 9] ∧
    (decode_prediction_to_wav_bytes [0, 1, 2, 3, 4, 5, 6, 7, 8, 9, 10]).framerate = 48000 ∧
    wavDataByteLength (decode_prediction_to_wav_bytes [0, 1, 2, 3, 4, 5, 6, 7, 8, 9, 10]) = 20 ∧
    flattenFrames (decode_prediction_to_wav_bytes [0, 1, 2, 3, 4, 5, 6, 7, 8, 9, 10]).frames
      = [0, 1, 2, 3, 4, 5, 6, 7, 8, 9] := by
  refine ⟨((decode_prediction_wav_contract _).2.2.2.1 (by decide)).1,
    ((decode_prediction_wav_contract _).2.2.2.1 (by decide)).2,
    (decode_prediction_wav_contract _).1,
    ?_, ?_⟩
  · have h := ((decode_prediction_wav_contract [0, 1, 2, 3, 4, 5, 6, 7, 8, 9, 10]).2.2.2.2
      (by decide)).1
    simpa using h
  · have h := ((decode_prediction_wav_contract [0, 1, 2, 3, 4, 5, 6, 7, 8, 9, 10]).2.2.2.2
      (by decide)).2
    simpa using h

/-! ### Claim C7 -/

/-- C7: the final-page summary partitions all recorded sections by
`had_music` (the two filters cover the list and contain exactly the matching
sections), computes `percentage = score / total * 100` per section and `0`
when `total = 0`, averages the percentages within each partition as the
simple arithmetic mean only when both partitions are non-empty (an empty
partition yields no analysis rather than a division by zero), and reports
`improvement = music_avg - baseline_avg`. -/
theorem final_summary_contract (l : List SectionResult) :
    ((musicSections l).length + (noMusicSections l).length = l.length) ∧
    (∀ s, s ∈ musicSections l ↔ s ∈ l ∧ s.had_music = true) ∧
    (∀ s, s ∈ noMusicSections l ↔ s ∈ l ∧ s.had_music = false) ∧
    (∀ s : SectionResult, s.total_questions = 0 → sectionPercentage s = 0) ∧
    (∀ s : SectionResult, 0 < s.total_questions →
      sectionPercentage s = (s.correct_count : ℚ) / (s.total_questions : ℚ) * 100) ∧
    (noMusicSections l = [] ∨ musicSections l = [] → performanceAnalysis l = none) ∧
    (noMusicSections l ≠ [] → musicSections l ≠ [] →
      performanceAnalysis l =
        some (arithMean ((noMusicSections l).map sectionPercentage),
              arithMean ((musicSections l).map sectionPercentage),
              arithMean ((musicSections l).map sectionPercentage)
                - arithMean ((noMusicSections l).map sectionPercentage))) := by
  refine ⟨length_music_partition l, ?_, ?_, ?_, ?_, ?_, ?_⟩
  · intro s
    simp [musicSections, List.mem_filter]
  · intro s
    simp [noMusicSections, List.mem_filter]
  · intro s h
    simp [sectionPercentage, h]
  · intro s h
    simp [sectionPercentage, h]
  · intro h
    rcases h with h | h <;> simp [performanceAnalysis, h]
  · intro hn hm
    simp [performanceAnalysis, hn, hm]

/-- Witness for C7: the spec's example — one baseline section at 2/3 and two
music sections at 3/3 and 4/5 give `baseline_avg = 200/3 ≈ 66.7`,
`music_avg = 90`, `improvement = 70/3 ≈ 23.3`; a list with only music
sections yields no analysis; a zero-total section scores 0. -/
theorem final_summary_contract_witness :
    performanceAnalysis
        [⟨false, 2, 3⟩, ⟨true, 3, 3⟩, ⟨true, 4, 5⟩] = some (200 / 3, 90, 70 / 3) ∧
    performanceAnalysis [⟨true, 1, 3⟩] = none ∧
    sectionPercentage ⟨false, 2, 0⟩ = 0 := by
  refine ⟨?_, ?_, ?_⟩
  · rw [(final_summary_contract [⟨false, 2, 3⟩, ⟨true, 3, 3⟩, ⟨true, 4, 5⟩]).2.2.2.2.2.2
      (by decide) (by decide)]
    norm_num [musicSections, noMusicSections, arithMean, sectionPercentage]
  · exact (final_summary_contract [⟨true, 1, 3⟩]).2.2.2.2.2.1 (Or.inl (by decide))
  · exact (final_summary_contract []).2.2.2.1 ⟨false, 2, 0⟩ rfl

/-! ### Claim C6 -/

/-- C6: on every terminal music-generation failure — auth failure (no
token), exhausted retries, an HTTP error, a malformed (non-JSON) response,
an empty prediction list, or a failing payload decode — `load_music` returns
`create_silent_audio`, the silence asset: a 30-second, 44100 Hz,
single-channel, all-zero sample buffer in a WAV container; and the fallback
is total — its internal `try`/`except` returns the empty byte sequence
rather than raising when the encoder fails. -/
theorem load_music_silence_fallback :
    (∀ env : LyriaEnv, env.token = none →
      load_music env 3 = ⟨create_silent_audio 30, 0⟩) ∧
    (∀ env : LyriaEnv, ∀ tk s, env.token = some tk → env.attempts 1 = .httpError s →
      load_music env 3 = ⟨create_silent_audio 30, 1⟩) ∧
    (∀ env : LyriaEnv, ∀ tk, env.token = some tk → (∀ a, env.attempts a = .timeout) →
      load_music env 3 = ⟨create_silent_audio 30, 3⟩) ∧
    (∀ env : LyriaEnv, ∀ tk, env.token = some tk →
      env.attempts 1 = .success .invalidJson →
      load_music env 3 = ⟨create_silent_audio 30, 1⟩) ∧
    (∀ env : LyriaEnv, ∀ tk, env.token = some tk →
      env.attempts 1 = .success (.json []) →
      load_music env 3 = ⟨create_silent_audio 30, 1⟩) ∧
    (∀ env : LyriaEnv, ∀ tk preds, env.token = some tk →
      env.attempts 1 = .success (.json (.corrupt :: preds)) →
      load_music env 3 = ⟨create_silent_audio 30, 1⟩) ∧
    (create_silent_audio 30 =
      .monoWav { framerate := 44100, nchannels := 1,
                 samples := List.replicate (44100 * 30) 0 }) ∧
    (∀ m : MonoWav, create_silent_audio 30 = .monoWav m →
      m.framerate = 44100 ∧ m.nchannels = 1 ∧
      m.samples.length = 44100 * 30 ∧ ∀ x ∈ m.samples, x = 0) ∧
    (silent_fallback_of none = .empty) := by
  refine ⟨?_, ?_, ?_, ?_, ?_, ?_, rfl, ?_, rfl⟩
  · intro env h
    simp [load_music, h]
  · intro env tk s ht h
    simp [load_music, ht, lyriaGo, h]
  · intro env tk ht h
    simp [load_music, ht, lyriaGo, h 1, h 2, h 3]
  · intro env tk ht h
    simp [load_music, ht, lyriaGo, h, parseLyriaResponse]
  · intro env tk ht h
    simp [load_music, ht, lyriaGo, h, parseLyriaResponse]
  · intro env tk preds ht h
    simp [load_music, ht, lyriaGo, h, parseLyriaResponse]
  · intro m hm
    have hca : create_silent_audio 30 =
        MusicBytes.monoWav { framerate := 44100, nchannels := 1,
                             samples := List.replicate (44100 * 30) 0 } := rfl
    rw [hca] at hm
    cases hm
    refine ⟨rfl, rfl, List.length_replicate _ _, ?_⟩
    intro x hx
    exact List.eq_of_mem_replicate hx

def c6EnvNoToken : LyriaEnv := { token := none, attempts := fun _ => .timeout }

def c6EnvTimeout : LyriaEnv := { token := some "tok", attempts := fun _ => .timeout }

def c6EnvEmptyPreds : LyriaEnv :=
  { token := some "tok", attempts := fun _ => .success (.json []) }

/-- Witness for C6: concrete environments exercising the auth-failure,
exhausted-timeout, and empty-prediction-list fallbacks. -/
theorem load_music_silence_fallback_witness :
    load_music c6EnvNoToken 3 = ⟨create_silent_audio 30, 0⟩ ∧
    load_music c6EnvTimeout 3 = ⟨create_silent_audio 30, 3⟩ ∧
    load_music c6EnvEmptyPreds 3 = ⟨create_silent_audio 30, 1⟩ := by
  refine ⟨load_music_silence_fallback.1 c6EnvNoToken rfl,
    load_music_silence_fallback.2.2.1 c6EnvTimeout "tok" rfl (fun _ => rfl),
    load_music_silence_fallback.2.2.2.2.1 c6EnvEmptyPreds "tok" rfl rfl⟩

/-! ### Claim C1 -/

def c1Env : LyriaEnv :=
  { token := some "tok",
    attempts := fun a =>
      if a = 1 then .httpError 429 else .success (.json [.valid [0, 1, 2, 3]]) }

/-- C1 counterexample: in `load_music` with the configured bound `N = 3`, a
single HTTP 429 on the first attempt terminates generation by itself — the
loop stops after exactly one `requests.post` call and returns the silent
fallback — even though attempts remain and the second attempt would have
returned a successful prediction. -/
theorem load_music_429_not_retried_counterexample :
    (load_music c1Env 3).postCalls = 1 ∧
    (load_music c1Env 3).bytes = create_silent_audio 30 ∧
    c1Env.attempts 2 = .success (.json [.valid [0, 1, 2, 3]]) :=
  ⟨rfl, rfl, rfl⟩

/-- C1 (amended): in `load_music` an HTTP error response — 429 included —
is terminal on the attempt at which it occurs: the silent fallback is
returned immediately, with no retry, regardless of how many attempts remain;
a 429 is never retried. -/
theorem load_music_http_error_terminal :
    (∀ env : LyriaEnv, ∀ attempt left s, env.attempts attempt = .httpError s →
      lyriaGo env attempt left = ⟨create_silent_audio 30, attempt⟩) ∧
    (∀ env : LyriaEnv, ∀ tk, env.token = some tk → env.attempts 1 = .httpError 429 →
      load_music env 3 = ⟨create_silent_audio 30, 1⟩) := by
  constructor
  · intro env attempt left s h
    cases left <;> simp [lyriaGo, h]
  · intro env tk ht h
    simp [load_music, ht, lyriaGo, h]

/-- Witness for C1's amended theorem at the concrete 429 environment. -/
theorem load_music_http_error_terminal_witness :
    load_music c1Env 3 = ⟨create_silent_audio 30, 1⟩ :=
  load_music_http_error_terminal.2 c1Env "tok" rfl rfl

/-! ### Claim C2 -/

def c2Env : LyriaEnv :=
  { token := some "tok", attempts := fun _ => .otherError "Connection reset by peer" }

def c2GeminiEnv : Nat → GeminiOutcome := fun _ => .exn "Invalid API key provided"

/-- C2 counterexample: in `load_music` a non-rate-limit failure (a generic
connection error, not an HTTP error and not a rate-limit signal) is NOT
invoked exactly once: the operation is invoked three times before the
terminal fallback. -/
theorem nonretryable_single_invocation_counterexample :
    (load_music c2Env 3).postCalls = 3 ∧ ¬ (load_music c2Env 3).postCalls = 1 :=
  ⟨rfl, by decide⟩

/-- C2 (amended): a non-rate-limit failure on the first attempt is invoked
exactly once and is immediately terminal in `load_test_from_gemini`, and an
HTTP-error failure is invoked exactly once and is immediately terminal in
`load_music`; but in `load_music` a generic non-HTTP, non-timeout exception
is retried up to the 3-attempt bound before the terminal silent fallback. -/
theorem nonretryable_single_invocation_contract :
    (∀ env : Nat → GeminiOutcome, ∀ msg, isRateLimitMsg msg = false →
      env 1 = .exn msg →
      load_test_from_gemini env 7 = (("Error loading test. Please try again.", []), 1)) ∧
    (∀ env : LyriaEnv, ∀ tk s, env.token = some tk → env.attempts 1 = .httpError s →
      load_music env 3 = ⟨create_silent_audio 30, 1⟩) ∧
    (∀ env : LyriaEnv, ∀ tk, ∀ msgs : Nat → String, env.token = some tk →
      (∀ a, env.attempts a = .otherError (msgs a)) →
      load_music env 3 = ⟨create_silent_audio 30, 3⟩) := by
  refine ⟨?_, ?_, ?_⟩
  · intro env msg hmsg h
    simp [load_test_from_gemini, geminiGo, h, hmsg]
  · intro env tk s ht h
    simp [load_music, ht, lyriaGo, h]
  · intro env tk msgs ht h
    simp [load_music, ht, lyriaGo, h 1, h 2, h 3]

/-- Witness for C2's amended theorem: a non-rate-limit auth error in the
content path is invoked once; a generic connection error in the music path
is invoked three times. -/
theorem nonretryable_single_invocation_contract_witness :
    load_test_from_gemini c2GeminiEnv 7 =
      (("Error loading test. Please try again.", []), 1) ∧
    load_music c2Env 3 = ⟨create_silent_audio 30, 3⟩ :=
  ⟨nonretryable_single_invocation_contract.1 c2GeminiEnv
      "Invalid API key provided" (by decide) rfl,
    nonretryable_single_invocation_contract.2.2 c2Env "tok"
      (fun _ => "Connection reset by peer") rfl (fun _ => rfl)⟩

/-! ### Claim C10 -/

/-- C10: `load_test_from_gemini` decides retryability purely by substring
match on the exception's message: whenever the message contains "429" or
contains "rate limit" case-insensitively — whatever the underlying failure
was — the attempt is classified as a rate limit, hence retried while
attempts remain (the loop at `left + 1` continues with the next attempt),
and reported as the labelled rate-limited terminal failure after the 7th
invocation when every attempt fails with such a message. -/
theorem gemini_rate_limit_substring_classification :
    ∀ msg : String,
      strContains msg "429" = true ∨ strContains (strLower msg) "rate limit" = true →
      isRateLimitMsg msg = true ∧
      (∀ env : Nat → GeminiOutcome, ∀ attempt left, env attempt = .exn msg →
        geminiGo env attempt (left + 1) = geminiGo env (attempt + 1) left) ∧
      (∀ env : Nat → GeminiOutcome, (∀ a, env a = .exn msg) →
        load_test_from_gemini env 7 =
          (("Error loading test (rate limit). Please try again later.", []), 7)) := by
  intro msg hmsg
  have hc : isRateLimitMsg msg = true := by
    rcases hmsg with h | h <;> simp [isRateLimitMsg, h]
  refine ⟨hc, ?_, ?_⟩
  · intro env attempt left h
    simp [geminiGo, h, hc]
  · intro env h
    simp [load_test_from_gemini, geminiGo, h 1, h 2, h 3, h 4, h 5, h 6, h 7, hc]

def c10Msg : String := "Expecting value: line 429 column 1 (char 0)"

/-- Witness for C10: a JSON-parse-style error message that merely contains
"429" is classified as a rate limit and exhausts all 7 attempts. -/
theorem gemini_rate_limit_substring_classification_witness :
    load_test_from_gemini (fun _ => .exn c10Msg) 7 =
      (("Error loading test (rate limit). Please try again later.", []), 7) :=
  (gemini_rate_limit_substring_classification c10Msg
    (Or.inl (by decide))).2.2 (fun _ => .exn c10Msg) (fun _ => rfl)

/-! ### Claim C4 -/

def c4Env : Nat → GeminiOutcome := fun _ => .ok "A short passage about tides." []

/-- C4 counterexample: a successful first attempt whose parsed response has
an empty question list is returned as a success — the returned text is the
remote passage (not either error sentinel) and `questions = []`, violating
the claimed LessonPayload invariant. -/
theorem lesson_invariant_counterexample :
    load_test_from_gemini c4Env 7 = (("A short passage about tides.", []), 1) ∧
    "A short passage about tides." ≠ "Error loading test. Please try again." ∧
    "A short passage about tides."
      ≠ "Error loading test (rate limit). Please try again later." :=
  ⟨rfl, by decide, by decide⟩

/-- C4 (amended): `load_test_from_gemini` performs no validation on the
parsed payload: whenever an attempt succeeds, the function returns exactly
the remote's `generated_text` and `questions` — empty or invariant-violating
question lists included — so the LessonPayload invariant holds only when the
remote response itself satisfies it. -/
theorem gemini_success_returns_payload_unvalidated :
    (∀ env : Nat → GeminiOutcome, ∀ attempt left t qs, env attempt = .ok t qs →
      geminiGo env attempt left = ((t, qs), attempt)) ∧
    (∀ env : Nat → GeminiOutcome, ∀ t qs, env 1 = .ok t qs →
      load_test_from_gemini env 7 = ((t, qs), 1)) := by
  constructor
  · intro env attempt left t qs h
    cases left <;> simp [geminiGo, h]
  · intro env t qs h
    simp [load_test_from_gemini, geminiGo, h]

/-- Witness for C4's amended theorem at the empty-questions environment. -/
theorem gemini_success_returns_payload_unvalidated_witness :
    load_test_from_gemini c4Env 7 = (("A short passage about tides.", []), 1) :=
  gemini_success_returns_payload_unvalidated.2 c4Env
    "A short passage about tides." [] rfl

/-! ### Claim C3 -/

def c3Params : MusicParams := { tempo := some "Andante" }

/-- C3 counterexample: a MusicParams whose tempo value "Andante" lies
outside the five-entry enum gets NO fallback description —
`tempo_desc` is `none` — and the composed prompt contains the literal
"None" fragment (rendered by the f-string), contradicting the claim that an
unrecognized value falls back to a safe default description. -/
theorem tempo_default_counterexample :
    tempo_desc c3Params = none ∧
    pyOptStr (tempo_desc c3Params) = "None" ∧
    strContains (create_music_prompt c3Params).1 "None" = true :=
  ⟨rfl, rfl, by decide⟩

/-- C3 (amended): each of the five tempo and five volume enum values maps to
its fixed non-empty description, and a missing tempo/volume key falls back
to the "Moderate" description; but a present unrecognized value yields no
description (`none`), which is rendered as the literal text "None" inside
the composed prompt — no exception is raised, yet there is no safe default
description for unrecognized values. -/
theorem tempo_volume_description_contract :
    (∀ t ∈ ["Very Slow", "Slow", "Moderate", "Fast", "Very Fast"],
      (tempo_map t).isSome = true ∧ (tempo_map t).getD "" ≠ "") ∧
    (∀ v ∈ ["Very Quiet", "Quiet", "Moderate", "Loud", "Very Loud"],
      (volume_map v).isSome = true ∧ (volume_map v).getD "" ≠ "") ∧
    (∀ p : MusicParams, p.tempo = none →
      tempo_desc p = some "moderate tempo, steady rhythm") ∧
    (∀ p : MusicParams, p.volume = none →
      volume_desc p = some "moderate volume, balanced dynamics") ∧
    (∀ p : MusicParams, ∀ t, p.tempo = some t → tempo_map t = none →
      tempo_desc p = none ∧ strContains (create_music_prompt p).1 "None" = true) ∧
    (∀ p : MusicParams, ∀ v, p.volume = some v → volume_map v = none →
      volume_desc p = none ∧ strContains (create_music_prompt p).1 "None" = true) := by
  refine ⟨by decide, by decide, ?_, ?_, ?_, ?_⟩
  · intro p h
    simp [tempo_desc, h, tempo_map]
  · intro p h
    simp [volume_desc, h, volume_map]
  · intro p t ht hmap
    have hdesc : tempo_desc p = none := by simp [tempo_desc, ht, hmap]
    refine ⟨hdesc, ?_⟩
    simp only [create_music_prompt, main_prompt_of, hdesc, pyOptStr, strContains,
      String.data_append, List.append_assoc]
    apply listHasSub_append_left
    apply listHasSub_append_left
    apply listHasSub_append_left
    apply listHasSub_append_left
    exact listHasSub_of_startsWith (listStartsWith_append _ _)
  · intro p v hv hmap
    have hdesc : volume_desc p = none := by simp [volume_desc, hv, hmap]
    refine ⟨hdesc, ?_⟩
    simp only [create_music_prompt, main_prompt_of, hdesc, pyOptStr, strContains,
      String.data_append, List.append_assoc]
    apply listHasSub_append_left
    apply listHasSub_append_left
    apply listHasSub_append_left
    apply listHasSub_append_left
    apply listHasSub_append_left
    apply listHasSub_append_left
    apply listHasSub_append_left
    exact listHasSub_of_startsWith (listStartsWith_append _ _)

/-- Witness for C3's amended theorem: the enum value "Very Slow" has a
non-empty description, a missing tempo key falls back to the Moderate
description, and the unrecognized tempo "Andante" produces the None
fragment. -/
theorem tempo_volume_description_contract_witness :
    ((tempo_map "Very Slow").isSome = true ∧ (tempo_map "Very Slow").getD "" ≠ "") ∧
    tempo_desc {} = some "moderate tempo, steady rhythm" ∧
    (tempo_desc c3Params = none ∧
      strContains (create_music_prompt c3Params).1 "None" = true) :=
  ⟨tempo_volume_description_contract.1 "Very Slow" (by decide),
    tempo_volume_description_contract.2.2.1 {} rfl,
    tempo_volume_description_contract.2.2.2.2.1 c3Params "Andante" rfl (by decide)⟩

/-! ### Claim C8 -/

def c8Params : MusicParams := { negative_prompt := some "soft noise, vocals" }

/-- C8 counterexample: with the free-text negative prompt
"soft noise, vocals", the returned negative prompt, read as a
comma-separated list of terms, contains the term "vocals" twice — the
free-text item is deduplicated as one string, but its embedded ", "
reintroduces a duplicate term in the comma-separated reading. -/
theorem negative_prompt_duplicate_counterexample :
    ¬ (readTerms (create_music_prompt c8Params).2).Nodup ∧
    (readTerms (create_music_prompt c8Params).2).count "vocals" = 2 :=
  ⟨by decide, by decide⟩

/-- C8 (amended): for every MusicParams the deduplicated negative-item list
joined into the returned negative prompt contains no duplicate items and is
a superset of the five fixed terms {vocals, lyrics, singing, sudden changes,
jarring transitions}; the items are the units of deduplication (Python's
`set`), so a free-text item containing ", " can still reintroduce duplicate
terms when the joined string is re-read as a comma-separated list. -/
theorem negative_prompt_dedup_superset :
    ∀ p : MusicParams,
      ((negativeItems p).dedup).Nodup ∧
      "vocals" ∈ (negativeItems p).dedup ∧
      "lyrics" ∈ (negativeItems p).dedup ∧
      "singing" ∈ (negativeItems p).dedup ∧
      "sudden changes" ∈ (negativeItems p).dedup ∧
      "jarring transitions" ∈ (negativeItems p).dedup ∧
      (create_music_prompt p).2 = String.intercalate ", " (negativeItems p).dedup := by
  intro p
  refine ⟨List.nodup_dedup _, ?_, ?_, ?_, ?_, ?_, rfl⟩ <;>
    · rw [List.mem_dedup]
      simp [negativeItems]

/-! ### Claim C9 -/

/-- C9 counterexample: the instrument clause rendered for ["Piano"] is not
the claimed "featuring piano" — every non-empty clause carries a leading
", " separator from the source f-string. -/
theorem instrument_clause_counterexample :
    instrumentClause ["Piano"] ≠ "featuring piano" ∧
    instrumentClause ["Piano"] = ", featuring piano" :=
  ⟨by decide, by decide⟩

/-- C9 (amended): `create_music_prompt` renders the instrument clause by
list shape with instrument names lowercased, each non-empty clause prefixed
by the separator ", " that joins it to the tempo description: an empty list
yields no clause, one instrument yields ", featuring piano" for ["Piano"],
two yield ", featuring piano and guitar", and three or more yield
", featuring piano, guitar, and drums" (Oxford comma, last item joined with
"and"). -/
theorem instrument_clause_rendering :
    instrumentClause [] = "" ∧
    instrumentClause ["Piano"] = ", featuring piano" ∧
    instrumentClause ["Piano", "Guitar"] = ", featuring piano and guitar" ∧
    instrumentClause ["Piano", "Guitar", "Drums"]
      = ", featuring piano, guitar, and drums" ∧
    (∀ a : String, instrumentClause [a] = ", featuring " ++ strLower a) ∧
    (∀ a b : String,
      instrumentClause [a, b] = ", featuring " ++ strLower a ++ " and " ++ strLower b) := by
  refine ⟨rfl, by decide, by decide, by decide, ?_, ?_⟩
  · intro a
    rfl
  · intro a b
    rfl
